import Mathlib

/-!
Shallow embedding of `website.py` from the Brain-Tumor-Classification
repository.

Modelling conventions:
* A raster image of height `h`, width `w` and 3 colour channels is a
  function `Fin h → Fin w → Fin 3 → ℚ`.  Floating-point arithmetic
  (np.float32) is idealised as exact rational arithmetic.
* `np.std` contains a real square root, which has no exact rational
  counterpart; the square-root function is therefore an explicit
  parameter `sq : ℚ → ℚ` applied to the (exactly computed) variance.
* External pretrained collaborators (cv2.resize interpolation,
  cv2.createCLAHE, the feature extractor, the feature selector and the
  classifier) are opaque: they appear as function parameters.
* `uint8` values are `Fin 256`; the `astype(np.uint8)` conversion
  truncates (floor for the non-negative values arising here) and wraps
  modulo 256.
-/

/-- A 3-channel raster of height `h` and width `w`, values idealised as ℚ
(source: the numpy arrays flowing through `website.py`). -/
def Image (h w : ℕ) : Type := Fin h → Fin w → Fin 3 → ℚ

/-- The fixed 224×224 working size, `IMG_SIZE = (224, 224)` (line 10). -/
def IMG_SIZE : ℕ × ℕ := (224, 224)

/-- A 224×224×3 rational-valued image. -/
abbrev Img : Type := Image 224 224

/-- A 224×224×3 uint8 image (result of `astype(np.uint8)`). -/
def QImg : Type := Fin 224 → Fin 224 → Fin 3 → Fin 256

/-- A single 224×224 uint8 channel, the argument type of `clahe.apply`. -/
def Chan : Type := Fin 224 → Fin 224 → Fin 256

/-- `CLASS_NAMES = ["Glioma", "Meningioma", "No Tumor", "Pituitary"]` (line 11). -/
def CLASS_NAMES : List String := ["Glioma", "Meningioma", "No Tumor", "Pituitary"]

/-- The epsilon `1e-8` added to both divisors in `preprocess_image`. -/
def eps : ℚ := 1 / 100000000

/-- Index set of all pixels of a 224×224×3 array. -/
abbrev PixIdx : Type := Fin 224 × Fin 224 × Fin 3

/-- Sum of all entries of a 224×224×3 array. -/
def npSum (img : Img) : ℚ := ∑ p : PixIdx, img p.1 p.2.1 p.2.2

/-- `np.mean(img)` on a 224×224×3 array: sum over all 150528 entries
divided by the element count. -/
def npMean (img : Img) : ℚ := npSum img / (224 * 224 * 3)

/-- `np.var(img)`: mean of the squared deviations from the mean (the
radicand inside `np.std`). -/
def npVar (img : Img) : ℚ :=
  (∑ p : PixIdx, (img p.1 p.2.1 p.2.2 - npMean img) ^ 2) / (224 * 224 * 3)

/-- `np.std(img)`: square root of the variance.  The irrational square
root is supplied as the explicit parameter `sq`. -/
def npStd (sq : ℚ → ℚ) (img : Img) : ℚ := sq (npVar img)

/-- The universe of pixel indices is nonempty (224 > 0). -/
theorem univ_pix_nonempty : (Finset.univ : Finset PixIdx).Nonempty :=
  Finset.univ_nonempty

/-- `np.min(img)` on a 224×224×3 array. -/
def npMin (img : Img) : ℚ :=
  Finset.univ.inf' univ_pix_nonempty (fun p => img p.1 p.2.1 p.2.2)

/-- `np.max(img)` on a 224×224×3 array. -/
def npMax (img : Img) : ℚ :=
  Finset.univ.sup' univ_pix_nonempty (fun p => img p.1 p.2.1 p.2.2)

/-- `np.ptp(img)`: peak-to-peak range, max − min. -/
def npPtp (img : Img) : ℚ := npMax img - npMin img

/-- `astype(np.uint8)` applied to a rational: truncate (floor on the
non-negative values produced by the pipeline) and wrap modulo 256. -/
def toUInt8 (q : ℚ) : Fin 256 := ⟨Int.toNat ⌊q⌋ % 256, Nat.mod_lt _ (by norm_num)⟩

/-- `preprocess_image` (lines 49–60), transliterated line by line:
resize to `IMG_SIZE`, `astype(np.float32)` (identity in the exact-rational
idealisation), standardize by mean and std+1e-8, rescale by min and
ptp+1e-8, multiply by 255 and cast to uint8, apply
`cv2.createCLAHE(clipLimit=0.02, tileGridSize=(8,8))` to each of the 3
channels, cast back to float and divide by 255.  `resize` models
`cv2.resize`, `sq` the square root inside `np.std`, and `createCLAHE` the
opaque CLAHE factory. -/
def preprocess_image {h w : ℕ} (resize : Image h w → Img) (sq : ℚ → ℚ)
    (createCLAHE : ℚ → ℕ × ℕ → Chan → Chan) (image : Image h w) : Img :=
  let img_resized : Img := resize image
  let img0 : Img := fun y x c => img_resized y x c
  let img1 : Img := fun y x c => (img0 y x c - npMean img0) / (npStd sq img0 + eps)
  let img2 : Img := fun y x c => (img1 y x c - npMin img1) / (npPtp img1 + eps)
  let img3 : QImg := fun y x c => toUInt8 (img2 y x c * 255)
  let clahe : Chan → Chan := createCLAHE (2 / 100) (8, 8)
  let img_clahe : QImg := fun y x c => clahe (fun y2 x2 => img3 y2 x2 c) y x
  fun y x c => (img_clahe y x c : ℚ) / 255

/-- `predict_image_class` (lines 63–68): preprocess, extract features,
select features, take the classifier's probability row
(`predict_proba(...)[0]`, modelled directly as `classifier : F → List ℚ`),
and build `dict(zip(CLASS_NAMES, prediction_probs))`.  Since the four
class names are distinct, the Python dict is faithfully represented by
the zipped association list in insertion order. -/
def predict_image_class {h w : ℕ} {E F : Type} (resize : Image h w → Img)
    (sq : ℚ → ℚ) (createCLAHE : ℚ → ℕ × ℕ → Chan → Chan)
    (feature_extractor : Img → E) (feature_selector : E → F)
    (classifier : F → List ℚ) (img : Image h w) : List (String × ℚ) :=
  let img_processed := preprocess_image resize sq createCLAHE img
  let features := feature_extractor img_processed
  let selected_features := feature_selector features
  let prediction_probs := classifier selected_features
  List.zip CLASS_NAMES prediction_probs

/-! ## Spec-side step functions

The design document lists the preprocessing as seven named steps in a
fixed order.  Each step is defined separately here, following the spec's
words, and their composition is compared with the transliterated
`preprocess_image` (claim C2). -/

/-- Spec step 2: convert to floating point (identity in the
exact-rational idealisation of float32). -/
def step_toFloat (img : Img) : Img := img

/-- Spec step 3: subtract the global mean, divide by (global standard
deviation + 1e-8). -/
def step_standardize (sq : ℚ → ℚ) (img : Img) : Img :=
  fun y x c => (img y x c - npMean img) / (npStd sq img + eps)

/-- Spec step 4: subtract the global minimum, divide by (global
peak-to-peak range + 1e-8). -/
def step_rescale (img : Img) : Img :=
  fun y x c => (img y x c - npMin img) / (npPtp img + eps)

/-- Spec step 5: quantize to the 8-bit range [0,255]. -/
def step_quantize (img : Img) : QImg :=
  fun y x c => toUInt8 (img y x c * 255)

/-- Spec step 6: apply the contrast equalizer independently to each of
the 3 channels. -/
def step_clahePerChannel (clahe : Chan → Chan) (img : QImg) : QImg :=
  fun y x c => clahe (fun y2 x2 => img y2 x2 c) y x

/-- Spec step 7: convert back to floating point and divide by 255. -/
def step_toUnit (img : QImg) : Img :=
  fun y x c => (img y x c : ℚ) / 255

/-- The spec's preprocessing pipeline: the seven steps composed in the
order the design document lists them, with the CLAHE equalizer built
with clip limit 0.02 and tile grid 8×8. -/
def preprocess_spec {h w : ℕ} (resize : Image h w → Img) (sq : ℚ → ℚ)
    (createCLAHE : ℚ → ℕ × ℕ → Chan → Chan) (image : Image h w) : Img :=
  step_toUnit
    (step_clahePerChannel (createCLAHE (2 / 100) (8, 8))
      (step_quantize
        (step_rescale
          (step_standardize sq
            (step_toFloat (resize image))))))

/-! ## Python `max(dict, key=dict.get)` and dict lookups -/

/-- One comparison step of Python's `max`: the running best is replaced
only when the next item's key-value is strictly greater. -/
def pyMaxStep (best next : String × ℚ) : String × ℚ :=
  if best.2 < next.2 then next else best

/-- `max(predictions, key=predictions.get)` (line 88): iterate the dict
in insertion order keeping the first item of maximal value; an empty
dict raises `ValueError`.  With distinct keys, iterating the
association-list pairs is equivalent to iterating keys and looking each
one up. -/
def pyDictMax : List (String × ℚ) → Except String String
  | [] => Except.error "max() arg is an empty sequence"
  | p :: ps => Except.ok ((ps.foldl pyMaxStep p).1)

/-- `predictions[cls]` (lines 100 and 133): dict subscript, raising
`KeyError` when the key is absent. -/
def pyGetItem (d : List (String × ℚ)) (k : String) : Except String ℚ :=
  match d.lookup k with
  | some v => Except.ok v
  | none => Except.error ("KeyError: " ++ k)

/-- Line 88, `predicted_class = max(predictions, key=predictions.get)`,
applied to the dictionary returned by `predict_image_class`. -/
def predicted_class {h w : ℕ} {E F : Type} (resize : Image h w → Img)
    (sq : ℚ → ℚ) (createCLAHE : ℚ → ℕ × ℕ → Chan → Chan)
    (feature_extractor : Img → E) (feature_selector : E → F)
    (classifier : F → List ℚ) (img : Image h w) : Except String String :=
  pyDictMax (predict_image_class resize sq createCLAHE feature_extractor
    feature_selector classifier img)

/-- Spec-side notion of "first maximum wins": `k` with value `v` occurs
in the list, every earlier entry has a strictly smaller value, and every
later entry has a value ≤ `v` (so `v` is the maximum and `k` its first
occurrence). -/
def isFirstMax (l : List (String × ℚ)) (k : String) (v : ℚ) : Prop :=
  ∃ l1 l2, l = l1 ++ (k, v) :: l2 ∧ (∀ p ∈ l1, p.2 < v) ∧ ∀ p ∈ l2, p.2 ≤ v

/-! ## The upload handler (lines 79–139) -/

/-- `cv2.cvtColor(img, cv2.COLOR_BGR2RGB)` (line 84): reverse the
channel order of every pixel (channel 0 ↔ channel 2). -/
def cvtColor_BGR2RGB {h w : ℕ} (img : Image h w) : Image h w :=
  fun y x c => img y x (Fin.rev c)

/-- Everything the handler renders on success: the image given to
`st.image` (line 95), the prediction dict, the predicted class, the bar
chart values `[predictions[cls] for cls in CLASS_NAMES]` (line 100) and
the confidence `predictions[predicted_class]` (line 133). -/
structure Rendered (h w : ℕ) where
  displayed : Image h w
  predictions : List (String × ℚ)
  diagnosis : String
  chartValues : List ℚ
  confidence : ℚ

/-- The body of `if uploaded_file is not None:` (lines 79–139).  The
decode stage (lines 82–83, `cv2.imdecode`, which can fail on bad bytes)
and the prediction stage (lines 64–67, whose opaque model invocations
can raise) are fallible collaborators returning `Except String`; every
Python exception is modelled as `Except.error (str e)`.  The single
`try/except` wraps the whole body and converts any failure into the one
generic message `"Error processing image: " ++ str e` (line 139). -/
def uploaded_file_body {h w : ℕ}
    (decode : List (Fin 256) → Except String (Image h w))
    (predictStage : Image h w → Except String (List (String × ℚ)))
    (file_bytes : List (Fin 256)) : Except String (Rendered h w) := do
  let img ← decode file_bytes
  let img_rgb := cvtColor_BGR2RGB img
  let predictions ← predictStage img_rgb
  let pc ← pyDictMax predictions
  let values ← CLASS_NAMES.mapM (pyGetItem predictions)
  let conf ← pyGetItem predictions pc
  pure (Rendered.mk img_rgb predictions pc values conf)

/-- The `try:`/`except:` wrapper around the body: a successful run is
rendered as-is; any raised exception is converted to the single generic
message of line 139. -/
def uploaded_file_handler {h w : ℕ}
    (decode : List (Fin 256) → Except String (Image h w))
    (predictStage : Image h w → Except String (List (String × ℚ)))
    (file_bytes : List (Fin 256)) : Except String (Rendered h w) :=
  match uploaded_file_body decode predictStage file_bytes with
  | Except.ok r => Except.ok r
  | Except.error e => Except.error ("Error processing image: " ++ e)

/-! ## Allocation trace of `preprocess_image`

For the frame/aliasing claim C9, the pipeline is modelled once more at
the level of array buffers.  Each numpy/cv2 call in lines 50–59 that
returns a new array (`cv2.resize`, `astype`, the arithmetic operators,
`np.zeros_like`, `clahe.apply`) allocates a fresh buffer id; the only
in-place write in the function is `img_clahe[..., i] = ...` (line 58),
which writes the buffer created by `np.zeros_like` — never the caller's
input buffer. -/
structure AllocTrace where
  output : ℕ
  allocated : List ℕ
  written : List ℕ
  deriving DecidableEq, Repr

/-- Buffer-level trace of `preprocess_image` on an input buffer `input`:
fresh ids `input+1 … input+10` are allocated for, in order, the resize
result, the float cast, the standardized array, the rescaled array, the
uint8 cast, `np.zeros_like`, the three `clahe.apply` results, and the
final float division; the three loop iterations write the
`np.zeros_like` buffer (`input+6`). -/
def preprocess_image_alloc (input : ℕ) : AllocTrace :=
  let img_resized := input + 1
  let img_float := input + 2
  let img_std := input + 3
  let img_rescaled := input + 4
  let img_uint8 := input + 5
  let img_clahe := input + 6
  let clahe_ch0 := input + 7
  let clahe_ch1 := input + 8
  let clahe_ch2 := input + 9
  let img_out := input + 10
  { output := img_out
    allocated := [img_resized, img_float, img_std, img_rescaled, img_uint8,
      img_clahe, clahe_ch0, clahe_ch1, clahe_ch2, img_out]
    written := [img_clahe, img_clahe, img_clahe] }

/-! ## Helper lemmas -/

set_option maxRecDepth 4000

/-- The mean of a constant 224x224x3 array is that constant. -/
theorem npMean_const (c : ℚ) : npMean (fun _ _ _ => c) = c := by
  unfold npMean npSum
  rw [Finset.sum_const, Finset.card_univ]
  simp [Fintype.card_prod, Fintype.card_fin, nsmul_eq_mul]
  rw [mul_comm, mul_div_assoc]
  norm_num

/-- The variance of a constant array is 0. -/
theorem npVar_const (c : ℚ) : npVar (fun _ _ _ => c) = 0 := by
  unfold npVar
  rw [npMean_const]
  simp

/-- The minimum of a constant array is that constant. -/
theorem npMin_const (c : ℚ) : npMin (fun _ _ _ => c) = c := by
  unfold npMin
  exact Finset.inf'_const _ c

/-- The maximum of a constant array is that constant. -/
theorem npMax_const (c : ℚ) : npMax (fun _ _ _ => c) = c := by
  unfold npMax
  exact Finset.sup'_const _ c

/-- The peak-to-peak range of a constant array is 0. -/
theorem npPtp_const (c : ℚ) : npPtp (fun _ _ _ => c) = 0 := by
  simp [npPtp, npMin_const, npMax_const]

/-- Standardizing a constant array yields the all-zero array (the
numerator vanishes, whatever the divisor evaluates to). -/
theorem step_standardize_const (sq : ℚ → ℚ) (c : ℚ) :
    step_standardize sq (fun _ _ _ => c) = fun _ _ _ => (0 : ℚ) := by
  funext y x ch
  simp [step_standardize, npMean_const]

/-- A uint8 value divided by 255 lies in [0,1]. -/
theorem uint8_div_unit (n : Fin 256) : 0 ≤ (n : ℚ) / 255 ∧ (n : ℚ) / 255 ≤ 1 := by
  constructor
  · positivity
  · rw [div_le_one (by norm_num)]
    have hn : (n : ℕ) ≤ 255 := Nat.le_of_lt_succ n.2
    exact_mod_cast hn

/-- Every entry of a preprocessed image lies in [0,1]: the last stage
divides a uint8 value by 255. -/
theorem preprocess_image_range {h w : ℕ} (resize : Image h w → Img) (sq : ℚ → ℚ)
    (createCLAHE : ℚ → ℕ × ℕ → Chan → Chan) (img : Image h w)
    (y x : Fin 224) (c : Fin 3) :
    0 ≤ preprocess_image resize sq createCLAHE img y x c ∧
      preprocess_image resize sq createCLAHE img y x c ≤ 1 :=
  uint8_div_unit _

/-- `preprocess_image` is literally the composition of the spec's step
functions in the spec's order. -/
theorem preprocess_image_eq_steps {h w : ℕ} (resize : Image h w → Img) (sq : ℚ → ℚ)
    (createCLAHE : ℚ → ℕ × ℕ → Chan → Chan) (image : Image h w) :
    preprocess_image resize sq createCLAHE image =
      preprocess_spec resize sq createCLAHE image := rfl

/-- Structure of Python's `max` fold: either the accumulator survives
and bounds every list element, or the result is an element of the list
that is strictly greater than the accumulator and than everything before
it, and at least everything after it. -/
theorem foldl_pyMaxStep_cases :
    ∀ (l : List (String × ℚ)) (b r : String × ℚ), l.foldl pyMaxStep b = r →
    (r = b ∧ ∀ p ∈ l, p.2 ≤ b.2) ∨
    (∃ l1 l2, l = l1 ++ r :: l2 ∧ b.2 < r.2 ∧
      (∀ p ∈ l1, p.2 < r.2) ∧ (∀ p ∈ l2, p.2 ≤ r.2)) := by
  intro l
  induction l with
  | nil =>
    intro b r hr
    left
    exact ⟨hr.symm, by simp⟩
  | cons q qs ih =>
    intro b r hr
    have hr2 : qs.foldl pyMaxStep (pyMaxStep b q) = r := hr
    by_cases hb : b.2 < q.2
    · have hstep : pyMaxStep b q = q := by simp [pyMaxStep, hb]
      rw [hstep] at hr2
      rcases ih q r hr2 with ⟨heq, hle⟩ | ⟨l1, l2, hsplit, hlt, hpre, hpost⟩
      · right
        refine ⟨[], qs, ?_, ?_, by simp, ?_⟩
        · rw [heq]
          simp
        · rw [heq]
          exact hb
        · intro p hp
          rw [heq]
          exact hle p hp
      · right
        refine ⟨q :: l1, l2, ?_, lt_trans hb hlt, ?_, hpost⟩
        · rw [List.cons_append]
          exact congrArg (List.cons q) hsplit
        · intro p hp
          rcases List.mem_cons.mp hp with hpq | hpl
          · rw [hpq]
            exact hlt
          · exact hpre p hpl
    · have hstep : pyMaxStep b q = b := by simp [pyMaxStep, hb]
      rw [hstep] at hr2
      rcases ih b r hr2 with ⟨heq, hle⟩ | ⟨l1, l2, hsplit, hlt, hpre, hpost⟩
      · left
        refine ⟨heq, ?_⟩
        intro p hp
        rcases List.mem_cons.mp hp with hpq | hpl
        · rw [hpq]
          exact le_of_not_lt hb
        · exact hle p hpl
      · right
        refine ⟨q :: l1, l2, ?_, hlt, ?_, hpost⟩
        · rw [List.cons_append]
          exact congrArg (List.cons q) hsplit
        · intro p hp
          rcases List.mem_cons.mp hp with hpq | hpl
          · rw [hpq]
            exact lt_of_le_of_lt (le_of_not_lt hb) hlt
          · exact hpre p hpl

/-- `pyDictMax` on a nonempty dict returns a key that occurs in the
dict, whose value bounds every value, and that is the first maximum in
insertion order. -/
theorem pyDictMax_spec (l : List (String × ℚ)) (hne : l ≠ []) :
    ∃ k v, pyDictMax l = Except.ok k ∧ (k, v) ∈ l ∧ (∀ p ∈ l, p.2 ≤ v) ∧
      isFirstMax l k v := by
  match l with
  | [] => exact absurd rfl hne
  | p :: ps =>
    rcases hfold : ps.foldl pyMaxStep p with ⟨k, v⟩
    have hdm : pyDictMax (p :: ps) = Except.ok k := by
      show Except.ok (ps.foldl pyMaxStep p).1 = Except.ok k
      rw [hfold]
    refine ⟨k, v, hdm, ?_⟩
    rcases foldl_pyMaxStep_cases ps p (k, v) hfold with ⟨heq, hle⟩ |
      ⟨l1, l2, hsplit, hlt, hpre, hpost⟩
    · cases heq
      refine ⟨List.mem_cons_self _ _, ?_, [], ps, by simp, by simp, ?_⟩
      · intro p' hp'
        rcases List.mem_cons.mp hp' with hpq | hpl
        · rw [hpq]
        · exact hle p' hpl
      · intro p' hp'
        exact hle p' hp'
    · refine ⟨?_, ?_, p :: l1, l2, ?_, ?_, hpost⟩
      · rw [hsplit]
        exact List.mem_cons_of_mem p (by simp)
      · intro p' hp'
        rcases List.mem_cons.mp hp' with hpq | hpl
        · rw [hpq]
          exact le_of_lt hlt
        · rw [hsplit] at hpl
          rcases List.mem_append.mp hpl with hp1 | hp2
          · exact le_of_lt (hpre p' hp1)
          · rcases List.mem_cons.mp hp2 with hpr | hpl2
            · rw [hpr]
            · exact hpost p' hpl2
      · rw [List.cons_append]
        exact congrArg (List.cons p) hsplit
      · intro p' hp'
        rcases List.mem_cons.mp hp' with hpq | hpl
        · rw [hpq]
          exact hlt
        · exact hpre p' hpl

/-- Mapping first components over a zip takes a prefix of the first
list of the second list's length. -/
theorem map_fst_zip_eq_take {α β : Type} :
    ∀ (l1 : List α) (l2 : List β), (l1.zip l2).map Prod.fst = l1.take l2.length
  | [], _ => by simp
  | _ :: _, [] => by simp
  | a :: l1, b :: l2 => by
    simp [map_fst_zip_eq_take l1 l2]

/-- A failing decode makes the try-block fail with the decode's
exception, whatever the later stages are. -/
theorem body_err_decode {h w : ℕ} (decode : List (Fin 256) → Except String (Image h w))
    (predictStage : Image h w → Except String (List (String × ℚ)))
    (file_bytes : List (Fin 256)) (e : String) (hdec : decode file_bytes = Except.error e) :
    uploaded_file_body decode predictStage file_bytes = Except.error e := by
  unfold uploaded_file_body
  rw [hdec]
  rfl

/-- A failing prediction stage makes the try-block fail with that
stage's exception. -/
theorem body_err_predict {h w : ℕ} (decode : List (Fin 256) → Except String (Image h w))
    (predictStage : Image h w → Except String (List (String × ℚ)))
    (file_bytes : List (Fin 256)) (img : Image h w) (e : String)
    (hdec : decode file_bytes = Except.ok img)
    (hps : predictStage (cvtColor_BGR2RGB img) = Except.error e) :
    uploaded_file_body decode predictStage file_bytes = Except.error e := by
  unfold uploaded_file_body
  rw [hdec]
  show (predictStage (cvtColor_BGR2RGB img) >>= _) = Except.error e
  rw [hps]
  rfl

/-- A successful try-block run pins down the data flow: the decode
succeeded, the prediction stage was fed the channel-converted decoded
image, and the rendered output displays exactly that converted image. -/
theorem body_ok_elim {h w : ℕ} (decode : List (Fin 256) → Except String (Image h w))
    (predictStage : Image h w → Except String (List (String × ℚ)))
    (file_bytes : List (Fin 256)) (r : Rendered h w)
    (hbody : uploaded_file_body decode predictStage file_bytes = Except.ok r) :
    ∃ img preds, decode file_bytes = Except.ok img ∧
      predictStage (cvtColor_BGR2RGB img) = Except.ok preds ∧
      r.displayed = cvtColor_BGR2RGB img ∧ r.predictions = preds := by
  unfold uploaded_file_body at hbody
  cases hdec : decode file_bytes with
  | error e => rw [hdec] at hbody; exact absurd hbody (by simp [Bind.bind, Except.bind])
  | ok img =>
    rw [hdec] at hbody
    replace hbody : (predictStage (cvtColor_BGR2RGB img) >>= _) = Except.ok r := hbody
    cases hps : predictStage (cvtColor_BGR2RGB img) with
    | error e => rw [hps] at hbody; exact absurd hbody (by simp [Bind.bind, Except.bind])
    | ok preds =>
      rw [hps] at hbody
      replace hbody : (pyDictMax preds >>= _) = Except.ok r := hbody
      cases hpm : pyDictMax preds with
      | error e => rw [hpm] at hbody; exact absurd hbody (by simp [Bind.bind, Except.bind])
      | ok pc =>
        rw [hpm] at hbody
        replace hbody : (CLASS_NAMES.mapM (pyGetItem preds) >>= _) = Except.ok r := hbody
        cases hmm : CLASS_NAMES.mapM (pyGetItem preds) with
        | error e => rw [hmm] at hbody; exact absurd hbody (by simp [Bind.bind, Except.bind])
        | ok values =>
          rw [hmm] at hbody
          replace hbody : (pyGetItem preds pc >>= _) = Except.ok r := hbody
          cases hgi : pyGetItem preds pc with
          | error e => rw [hgi] at hbody; exact absurd hbody (by simp [Bind.bind, Except.bind])
          | ok conf =>
            rw [hgi] at hbody
            replace hbody :
                Except.ok (Rendered.mk (cvtColor_BGR2RGB img) preds pc values conf) =
                  Except.ok r := hbody
            injection hbody with hr
            rw [← hr]
            exact ⟨img, preds, rfl, hps, rfl, rfl⟩

/-- Concrete witness fixtures: a 1×1 all-zero upload, a constant resize,
an identity CLAHE factory, trivial feature stages, and constant
classifier outputs. -/
def wImg : Image 1 1 := fun _ _ _ => 0

/-- Witness fixture: constant resize collaborator. -/
def wResize : Image 1 1 → Img := fun _ => fun _ _ _ => 0

/-- Witness fixture: CLAHE factory returning the identity equalizer. -/
def wCC : ℚ → ℕ × ℕ → Chan → Chan := fun _ _ ch => ch

/-- Witness fixture: feature extractor collapsing to a unit embedding. -/
def wExt : Img → Unit := fun _ => ()

/-- Witness fixture: identity feature selector. -/
def wSel : Unit → Unit := fun u => u

/-- Witness fixture: classifier with a tie between positions 1 and 2. -/
def wCls : Unit → List ℚ := fun _ => [0, 2, 2, 1]

/-- Witness fixture: classifier returning a genuine 4-class probability
vector. -/
def wClsProb : Unit → List ℚ := fun _ => [0, 1, 0, 0]

/-- Witness fixture: decode stage succeeding with the 1×1 upload. -/
def wDecode : List (Fin 256) → Except String (Image 1 1) := fun _ => Except.ok wImg

/-- Witness fixture: decode stage failing. -/
def wDecodeFail : List (Fin 256) → Except String (Image 1 1) :=
  fun _ => Except.error "imdecode returned None"

/-- Witness fixture: prediction stage succeeding with a full 4-class
dict. -/
def wPredict : Image 1 1 → Except String (List (String × ℚ)) :=
  fun _ => Except.ok (List.zip CLASS_NAMES [1, 0, 0, 0])

/-! ## Claims -/

/-- C1: For every valid input image, the inference pipeline preprocesses
it and returns a mapping whose keys are exactly the 4 fixed class names,
whose values are taken verbatim from the classifier's probability output
associated by fixed positional order, and — under the classifier's
4-class probability contract — each value is a (finite) probability in
[0,1]. -/
theorem claim_C1_predict_distribution {h w : ℕ} {E F : Type}
    (resize : Image h w → Img) (sq : ℚ → ℚ)
    (createCLAHE : ℚ → ℕ × ℕ → Chan → Chan) (feature_extractor : Img → E)
    (feature_selector : E → F) (classifier : F → List ℚ) (img : Image h w)
    (probs : List ℚ)
    (hc : classifier (feature_selector (feature_extractor
        (preprocess_image resize sq createCLAHE img))) = probs)
    (hlen : probs.length = 4)
    (hprob : ∀ q ∈ probs, 0 ≤ q ∧ q ≤ 1) :
    (predict_image_class resize sq createCLAHE feature_extractor
        feature_selector classifier img).map Prod.fst = CLASS_NAMES ∧
    (predict_image_class resize sq createCLAHE feature_extractor
        feature_selector classifier img).map Prod.snd = probs ∧
    ∀ p ∈ predict_image_class resize sq createCLAHE feature_extractor
        feature_selector classifier img, 0 ≤ p.2 ∧ p.2 ≤ 1 := by
  have hd : predict_image_class resize sq createCLAHE feature_extractor
      feature_selector classifier img = List.zip CLASS_NAMES probs := by
    show List.zip CLASS_NAMES (classifier (feature_selector (feature_extractor
        (preprocess_image resize sq createCLAHE img)))) = List.zip CLASS_NAMES probs
    rw [hc]
  refine ⟨?_, ?_, ?_⟩
  · rw [hd]
    exact List.map_fst_zip _ _ (by rw [hlen]; decide)
  · rw [hd]
    exact List.map_snd_zip _ _ (by rw [hlen]; decide)
  · intro p hp
    rw [hd] at hp
    have hmem : p.1 ∈ CLASS_NAMES ∧ p.2 ∈ probs := List.of_mem_zip hp
    exact hprob p.2 hmem.2

/-- C1 witness: concrete pipeline fixtures with classifier output
[0, 1, 0, 0]. -/
theorem claim_C1_predict_distribution_witness :
    (wClsProb (wSel (wExt (preprocess_image wResize id wCC wImg))) = [0, 1, 0, 0] ∧
      ([(0 : ℚ), 1, 0, 0] : List ℚ).length = 4 ∧
      ∀ q ∈ ([(0 : ℚ), 1, 0, 0] : List ℚ), 0 ≤ q ∧ q ≤ 1) ∧
    ((predict_image_class wResize id wCC wExt wSel wClsProb wImg).map Prod.fst =
        CLASS_NAMES ∧
      (predict_image_class wResize id wCC wExt wSel wClsProb wImg).map Prod.snd =
        [0, 1, 0, 0] ∧
      ∀ p ∈ predict_image_class wResize id wCC wExt wSel wClsProb wImg,
        0 ≤ p.2 ∧ p.2 ≤ 1) :=
  ⟨⟨rfl, rfl, by decide⟩,
    claim_C1_predict_distribution wResize id wCC wExt wSel wClsProb wImg
      [0, 1, 0, 0] rfl rfl (by decide)⟩

/-- C2: On every input image, `preprocess_image` applies exactly the
spec's steps in the spec's fixed order: resize to 224×224, convert to
float, standardize by (mean, std + 1e-8), rescale by (min, ptp + 1e-8),
quantize to [0,255], per-channel CLAHE with clip limit 0.02 and tile
grid 8×8, then convert back to float and divide by 255. -/
theorem claim_C2_preprocess_steps {h w : ℕ} (resize : Image h w → Img)
    (sq : ℚ → ℚ) (createCLAHE : ℚ → ℕ × ℕ → Chan → Chan) (image : Image h w) :
    preprocess_image resize sq createCLAHE image =
      preprocess_spec resize sq createCLAHE image :=
  preprocess_image_eq_steps resize sq createCLAHE image

/-- C3: For any valid input image of arbitrary dimensions `h`×`w`,
`preprocess_image` returns an array of shape exactly 224×224×3 (the
result type `Img`) with every value in [0,1]. -/
theorem claim_C3_preprocess_shape_range {h w : ℕ} (resize : Image h w → Img)
    (sq : ℚ → ℚ) (createCLAHE : ℚ → ℕ × ℕ → Chan → Chan) (img : Image h w)
    (y x : Fin 224) (c : Fin 3) :
    0 ≤ preprocess_image resize sq createCLAHE img y x c ∧
      preprocess_image resize sq createCLAHE img y x c ≤ 1 :=
  preprocess_image_range resize sq createCLAHE img y x c

/-- C4: The predicted class of line 88 is the argmax of the returned
class distribution, with ties broken by first occurrence in insertion
order of the fixed class-name list (first maximum wins). -/
theorem claim_C4_predicted_class_argmax {h w : ℕ} {E F : Type}
    (resize : Image h w → Img) (sq : ℚ → ℚ)
    (createCLAHE : ℚ → ℕ × ℕ → Chan → Chan) (feature_extractor : Img → E)
    (feature_selector : E → F) (classifier : F → List ℚ) (img : Image h w)
    (hne : predict_image_class resize sq createCLAHE feature_extractor
        feature_selector classifier img ≠ []) :
    ∃ k v, predicted_class resize sq createCLAHE feature_extractor
        feature_selector classifier img = Except.ok k ∧
      (k, v) ∈ predict_image_class resize sq createCLAHE feature_extractor
        feature_selector classifier img ∧
      (∀ p ∈ predict_image_class resize sq createCLAHE feature_extractor
        feature_selector classifier img, p.2 ≤ v) ∧
      isFirstMax (predict_image_class resize sq createCLAHE feature_extractor
        feature_selector classifier img) k v :=
  pyDictMax_spec _ hne

/-- C4 witness: classifier output [0, 2, 2, 1] ties positions 1 and 2;
the first maximum ("Meningioma") wins. -/
theorem claim_C4_predicted_class_argmax_witness :
    (predict_image_class wResize id wCC wExt wSel wCls wImg ≠ []) ∧
    (predicted_class wResize id wCC wExt wSel wCls wImg = Except.ok "Meningioma") ∧
    ∃ k v, predicted_class wResize id wCC wExt wSel wCls wImg = Except.ok k ∧
      (k, v) ∈ predict_image_class wResize id wCC wExt wSel wCls wImg ∧
      (∀ p ∈ predict_image_class wResize id wCC wExt wSel wCls wImg, p.2 ≤ v) ∧
      isFirstMax (predict_image_class wResize id wCC wExt wSel wCls wImg) k v :=
  ⟨by decide, rfl,
    claim_C4_predicted_class_argmax wResize id wCC wExt wSel wCls wImg (by decide)⟩

/-- C5: For a uniform (constant-colour) input image the global standard
deviation and the global peak-to-peak range are exactly 0, yet both
divisors std+1e-8 and ptp+1e-8 are nonzero thanks to the added epsilon,
and preprocessing yields a finite result in [0,1].  The hypotheses state
that the input is uniform, that the (opaque, interpolating) resize
preserves uniformity, and that the square root of 0 is 0. -/
theorem claim_C5_uniform_no_div_zero {h w : ℕ} (resize : Image h w → Img)
    (sq : ℚ → ℚ) (createCLAHE : ℚ → ℕ × ℕ → Chan → Chan) (img : Image h w)
    (c : ℚ) (_himg : ∀ y x ch, img y x ch = c)
    (hres : ∀ y x ch, resize img y x ch = c) (hsq : sq 0 = 0) :
    npStd sq (resize img) = 0 ∧
    npPtp (step_standardize sq (resize img)) = 0 ∧
    npStd sq (resize img) + eps ≠ 0 ∧
    npPtp (step_standardize sq (resize img)) + eps ≠ 0 ∧
    ∀ y x ch, 0 ≤ preprocess_image resize sq createCLAHE img y x ch ∧
      preprocess_image resize sq createCLAHE img y x ch ≤ 1 := by
  have hconst : resize img = fun _ _ _ => c := by
    funext y x ch
    exact hres y x ch
  have h1 : npStd sq (resize img) = 0 := by
    rw [hconst]
    unfold npStd
    rw [npVar_const]
    exact hsq
  have h2 : npPtp (step_standardize sq (resize img)) = 0 := by
    rw [hconst, step_standardize_const, npPtp_const]
  refine ⟨h1, h2, ?_, ?_, ?_⟩
  · rw [h1]
    norm_num [eps]
  · rw [h2]
    norm_num [eps]
  · intro y x ch
    exact preprocess_image_range resize sq createCLAHE img y x ch

/-- C5 witness: the all-zero 1×1 upload with constant resize and
identity square root. -/
theorem claim_C5_uniform_no_div_zero_witness :
    ((∀ y x ch, wImg y x ch = 0) ∧ (∀ y x ch, wResize wImg y x ch = 0) ∧
      id (0 : ℚ) = 0) ∧
    (npStd id (wResize wImg) = 0 ∧
      npPtp (step_standardize id (wResize wImg)) = 0 ∧
      npStd id (wResize wImg) + eps ≠ 0 ∧
      npPtp (step_standardize id (wResize wImg)) + eps ≠ 0 ∧
      ∀ y x ch, 0 ≤ preprocess_image wResize id wCC wImg y x ch ∧
        preprocess_image wResize id wCC wImg y x ch ≤ 1) :=
  ⟨⟨fun _ _ _ => rfl, fun _ _ _ => rfl, rfl⟩,
    claim_C5_uniform_no_div_zero wResize id wCC wImg 0
      (fun _ _ _ => rfl) (fun _ _ _ => rfl) rfl⟩

/-- C6: The pipeline is deterministic: with the same fixed loaded
models, two invocations of the inference function on the identical image
yield identical output distributions.  (`predict_image_class` is a pure
function of its inputs; two calls on extensionally identical images are
literally the same value.) -/
theorem claim_C6_deterministic {h w : ℕ} {E F : Type} (resize : Image h w → Img)
    (sq : ℚ → ℚ) (createCLAHE : ℚ → ℕ × ℕ → Chan → Chan)
    (feature_extractor : Img → E) (feature_selector : E → F)
    (classifier : F → List ℚ) (img1 img2 : Image h w)
    (hid : ∀ y x c, img1 y x c = img2 y x c) :
    predict_image_class resize sq createCLAHE feature_extractor
        feature_selector classifier img1 =
      predict_image_class resize sq createCLAHE feature_extractor
        feature_selector classifier img2 := by
  have himg : img1 = img2 := funext fun y => funext fun x => funext fun c => hid y x c
  rw [himg]

/-- C6 witness: two invocations on the same concrete 1×1 upload. -/
theorem claim_C6_deterministic_witness :
    (∀ y x c, wImg y x c = wImg y x c) ∧
    predict_image_class wResize id wCC wExt wSel wCls wImg =
      predict_image_class wResize id wCC wExt wSel wCls wImg :=
  ⟨fun _ _ _ => rfl,
    claim_C6_deterministic wResize id wCC wExt wSel wCls wImg wImg
      (fun _ _ _ => rfl)⟩

/-- C7: Every failure during decode or any later pipeline stage is
caught at the single outermost boundary and surfaces as the one generic
user-facing message; the result is either a full render or that single
error (no partial results), a decode failure fixes the outcome whatever
the later stages would do (nothing retried, no fallback invoked), and a
prediction-stage failure likewise surfaces generically. -/
theorem claim_C7_generic_error_boundary {h w : ℕ}
    (decode : List (Fin 256) → Except String (Image h w))
    (predictStage : Image h w → Except String (List (String × ℚ)))
    (file_bytes : List (Fin 256)) :
    ((∃ r, uploaded_file_handler decode predictStage file_bytes = Except.ok r) ∨
      (∃ e, uploaded_file_handler decode predictStage file_bytes =
        Except.error ("Error processing image: " ++ e))) ∧
    (∀ e, decode file_bytes = Except.error e →
      ∀ predictStage2 : Image h w → Except String (List (String × ℚ)),
        uploaded_file_handler decode predictStage2 file_bytes =
          Except.error ("Error processing image: " ++ e)) ∧
    (∀ img e, decode file_bytes = Except.ok img →
      predictStage (cvtColor_BGR2RGB img) = Except.error e →
        uploaded_file_handler decode predictStage file_bytes =
          Except.error ("Error processing image: " ++ e)) := by
  refine ⟨?_, ?_, ?_⟩
  · cases hb : uploaded_file_body decode predictStage file_bytes with
    | ok r =>
      left
      refine ⟨r, ?_⟩
      unfold uploaded_file_handler
      rw [hb]
    | error e =>
      right
      refine ⟨e, ?_⟩
      unfold uploaded_file_handler
      rw [hb]
  · intro e hdec predictStage2
    unfold uploaded_file_handler
    rw [body_err_decode decode predictStage2 file_bytes e hdec]
  · intro img e hdec hps
    unfold uploaded_file_handler
    rw [body_err_predict decode predictStage file_bytes img e hdec hps]

/-- C7 witness: a failing decode surfaces as the generic message, and
the general disjunction holds at the same concrete inputs. -/
theorem claim_C7_generic_error_boundary_witness :
    (uploaded_file_handler wDecodeFail wPredict [] =
      Except.error ("Error processing image: " ++ "imdecode returned None")) ∧
    ((∃ r, uploaded_file_handler wDecodeFail wPredict [] = Except.ok r) ∨
      (∃ e, uploaded_file_handler wDecodeFail wPredict [] =
        Except.error ("Error processing image: " ++ e))) :=
  ⟨(claim_C7_generic_error_boundary wDecodeFail wPredict []).2.1
      "imdecode returned None" rfl wPredict,
    (claim_C7_generic_error_boundary wDecodeFail wPredict []).1⟩

/-- C8: The decoded upload is channel-converted before use, the same
converted red/green/blue raster is what the prediction stage receives
and what is displayed, the conversion reverses the decoded BGR channel
order (red = decoded channel 2, green = 1, blue = 0), and converting the
displayed raster back recovers the decoded one (round trip). -/
theorem claim_C8_channel_order_roundtrip {h w : ℕ}
    (decode : List (Fin 256) → Except String (Image h w))
    (predictStage : Image h w → Except String (List (String × ℚ)))
    (file_bytes : List (Fin 256)) (img : Image h w) (r : Rendered h w)
    (hdec : decode file_bytes = Except.ok img)
    (hok : uploaded_file_handler decode predictStage file_bytes = Except.ok r) :
    r.displayed = cvtColor_BGR2RGB img ∧
    predictStage (cvtColor_BGR2RGB img) = Except.ok r.predictions ∧
    (∀ y x, r.displayed y x 0 = img y x 2 ∧ r.displayed y x 1 = img y x 1 ∧
      r.displayed y x 2 = img y x 0) ∧
    cvtColor_BGR2RGB r.displayed = img := by
  have hbody : uploaded_file_body decode predictStage file_bytes = Except.ok r := by
    unfold uploaded_file_handler at hok
    cases hb : uploaded_file_body decode predictStage file_bytes with
    | ok r2 =>
      rw [hb] at hok
      injection hok with hr
      rw [hr]
    | error e =>
      rw [hb] at hok
      exact absurd hok (by simp)
  obtain ⟨img2, preds, hdec2, hps2, hdisp, hpreds⟩ :=
    body_ok_elim decode predictStage file_bytes r hbody
  have himg : img2 = img := by
    rw [hdec] at hdec2
    injection hdec2 with h2
    exact h2.symm
  rw [himg] at hps2 hdisp
  have hrev0 : Fin.rev (0 : Fin 3) = 2 := by decide
  have hrev1 : Fin.rev (1 : Fin 3) = 1 := by decide
  have hrev2 : Fin.rev (2 : Fin 3) = 0 := by decide
  refine ⟨hdisp, ?_, ?_, ?_⟩
  · rw [hps2, hpreds]
  · intro y x
    rw [hdisp]
    unfold cvtColor_BGR2RGB
    rw [hrev0, hrev1, hrev2]
    exact ⟨rfl, rfl, rfl⟩
  · rw [hdisp]
    funext y x c
    show img y x (Fin.rev (Fin.rev c)) = img y x c
    rw [Fin.rev_rev]

/-- C8 witness: a successful concrete run; hypotheses discharged by
evaluation. -/
theorem claim_C8_channel_order_roundtrip_witness :
    (wDecode [] = Except.ok wImg) ∧
    (uploaded_file_handler wDecode wPredict [] = Except.ok
      (Rendered.mk (cvtColor_BGR2RGB wImg) (List.zip CLASS_NAMES [1, 0, 0, 0])
        "Glioma" [1, 0, 0, 0] 1)) ∧
    ((Rendered.mk (cvtColor_BGR2RGB wImg) (List.zip CLASS_NAMES [1, 0, 0, 0])
        "Glioma" [1, 0, 0, 0] (1 : ℚ)).displayed = cvtColor_BGR2RGB wImg ∧
      wPredict (cvtColor_BGR2RGB wImg) = Except.ok
        (Rendered.mk (cvtColor_BGR2RGB wImg) (List.zip CLASS_NAMES [1, 0, 0, 0])
          "Glioma" [1, 0, 0, 0] (1 : ℚ)).predictions ∧
      (∀ y x, (Rendered.mk (cvtColor_BGR2RGB wImg) (List.zip CLASS_NAMES [1, 0, 0, 0])
          "Glioma" [1, 0, 0, 0] (1 : ℚ)).displayed y x 0 = wImg y x 2 ∧
        (Rendered.mk (cvtColor_BGR2RGB wImg) (List.zip CLASS_NAMES [1, 0, 0, 0])
          "Glioma" [1, 0, 0, 0] (1 : ℚ)).displayed y x 1 = wImg y x 1 ∧
        (Rendered.mk (cvtColor_BGR2RGB wImg) (List.zip CLASS_NAMES [1, 0, 0, 0])
          "Glioma" [1, 0, 0, 0] (1 : ℚ)).displayed y x 2 = wImg y x 0) ∧
      cvtColor_BGR2RGB (Rendered.mk (cvtColor_BGR2RGB wImg)
        (List.zip CLASS_NAMES [1, 0, 0, 0]) "Glioma" [1, 0, 0, 0]
        (1 : ℚ)).displayed = wImg) :=
  ⟨rfl, rfl,
    claim_C8_channel_order_roundtrip wDecode wPredict [] wImg
      (Rendered.mk (cvtColor_BGR2RGB wImg) (List.zip CLASS_NAMES [1, 0, 0, 0])
        "Glioma" [1, 0, 0, 0] 1) rfl rfl⟩

/-- C9 counterexample: at the buffer level the claim "the pipeline
stages operate on the uploaded image's own array rather than producing
fresh arrays" is false for the upload buffer 0: the input buffer is
never written, the output is a different buffer, and fresh buffers are
allocated. -/
theorem claim_C9_in_place_counterexample :
    ¬ (0 ∈ (preprocess_image_alloc 0).written ∨
        (preprocess_image_alloc 0).output = 0 ∨
        (preprocess_image_alloc 0).allocated = []) := by
  decide

/-- C9 (amended): every stage of `preprocess_image` allocates a fresh
array; the uploaded image's own buffer is never written and is not the
output, so the upload is read once, used for a single inference, and
never mutated or persisted. -/
theorem claim_C9_fresh_arrays (input : ℕ) :
    input ∉ (preprocess_image_alloc input).written ∧
    (preprocess_image_alloc input).output ≠ input ∧
    (preprocess_image_alloc input).allocated ≠ [] ∧
    ∀ a ∈ (preprocess_image_alloc input).allocated, a ≠ input := by
  refine ⟨?_, ?_, ?_, ?_⟩
  · intro hmem
    simp [preprocess_image_alloc] at hmem
  · simp [preprocess_image_alloc]
  · simp [preprocess_image_alloc]
  · intro a ha
    simp [preprocess_image_alloc] at ha
    omega

/-- C10: `predict_image_class` raises no error when the classifier's
probability vector has length ≠ 4: `dict(zip(CLASS_NAMES, probs))`
silently truncates, the returned mapping has exactly
min(4, probs.length) keys — a prefix of the class-name list — and it
carries all 4 class names exactly when the classifier outputs at least 4
probabilities. -/
theorem claim_C10_zip_truncation {h w : ℕ} {E F : Type}
    (resize : Image h w → Img) (sq : ℚ → ℚ)
    (createCLAHE : ℚ → ℕ × ℕ → Chan → Chan) (feature_extractor : Img → E)
    (feature_selector : E → F) (classifier : F → List ℚ) (img : Image h w) :
    (predict_image_class resize sq createCLAHE feature_extractor
        feature_selector classifier img).map Prod.fst =
      CLASS_NAMES.take (classifier (feature_selector (feature_extractor
        (preprocess_image resize sq createCLAHE img)))).length ∧
    (predict_image_class resize sq createCLAHE feature_extractor
        feature_selector classifier img).length =
      min 4 (classifier (feature_selector (feature_extractor
        (preprocess_image resize sq createCLAHE img)))).length ∧
    ((predict_image_class resize sq createCLAHE feature_extractor
        feature_selector classifier img).map Prod.fst = CLASS_NAMES ↔
      4 ≤ (classifier (feature_selector (feature_extractor
        (preprocess_image resize sq createCLAHE img)))).length) := by
  have hd : predict_image_class resize sq createCLAHE feature_extractor
      feature_selector classifier img =
        List.zip CLASS_NAMES (classifier (feature_selector (feature_extractor
          (preprocess_image resize sq createCLAHE img)))) := rfl
  have htake : (predict_image_class resize sq createCLAHE feature_extractor
      feature_selector classifier img).map Prod.fst =
        CLASS_NAMES.take (classifier (feature_selector (feature_extractor
          (preprocess_image resize sq createCLAHE img)))).length := by
    rw [hd]
    exact map_fst_zip_eq_take CLASS_NAMES _
  refine ⟨htake, ?_, ?_⟩
  · rw [hd, List.length_zip]
    rfl
  · rw [htake]
    constructor
    · intro ht
      have hlen := congrArg List.length ht
      rw [List.length_take] at hlen
      have h4 : CLASS_NAMES.length = 4 := rfl
      rw [h4] at hlen
      omega
    · intro h4
      exact List.take_of_length_le h4
